import Mathlib

/-!
Verification development for the thread-analysis pipeline service.

The Python sources are shallowly embedded: each relevant function becomes a
Lean definition over explicit inputs, with external collaborators (vector
store, HDBSCAN solver, MongoDB, Celery control) represented as environment
records of functions, side effects collected into an explicit list, and
Python exceptions represented by an `Except` result.  Numeric probabilities
and scores are modelled by `Rat` (the values reasoned about are exact:
`1.0`, `-1`, counts and count ratios).
-/

namespace Service

/-- Python exceptions that can cross function boundaries in the embedded
code.  `str(e)` of an exception is modelled by `PyExc.str`. -/
inductive PyExc where
  | attributeError (msg : String)
  | nameError (msg : String)
  | valueError (msg : String)
  | memoryError (msg : String)
  | typeError (msg : String)
  | other (msg : String)
deriving DecidableEq, Repr

/-- Python `str(e)` for the modelled exceptions. -/
def PyExc.str : PyExc → String
  | .attributeError m => m
  | .nameError m => m
  | .valueError m => m
  | .memoryError m => m
  | .typeError m => m
  | .other m => m

/-- The `TaskStatus` enumeration from `app/schemas/tasks/task_status.py`.
It has exactly these thirteen members; in particular there is no
`CANCELLED` member. -/
inductive TaskStatus where
  | RECEIVED
  | PENDING
  | RUNNING_FETCH_THREADS
  | RUNNING_FETCH_THREADS_CATEGORY
  | INSERTING_SUCCESS
  | RUNNING_CLUSTERING
  | FINISH_CLUSTERING
  | RUNNING_AGENT_ANALYSIS
  | RUNNING_UNIT_TREND_ANALYSIS
  | COMPLETED
  | SUCCESS
  | FAILURE
  | ERROR
deriving DecidableEq, Repr

/-- The string value of each `TaskStatus` member. -/
def TaskStatus.value : TaskStatus → String
  | .RECEIVED => "received"
  | .PENDING => "pending"
  | .RUNNING_FETCH_THREADS => "running fetch_and_store_threads_by_unit"
  | .RUNNING_FETCH_THREADS_CATEGORY => "running fetch_and_store_threads_by_unit_by_category"
  | .INSERTING_SUCCESS => "inserting success"
  | .RUNNING_CLUSTERING => "running clustering"
  | .FINISH_CLUSTERING => "finish clustering"
  | .RUNNING_AGENT_ANALYSIS => "running agent analysis"
  | .RUNNING_UNIT_TREND_ANALYSIS => "running unit trend analysis"
  | .COMPLETED => "completed"
  | .SUCCESS => "success"
  | .FAILURE => "failure"
  | .ERROR => "error"

/-- The `TASK_STATUS_PROGRESS` dictionary, total over the enumeration. -/
def TASK_STATUS_PROGRESS : TaskStatus → Nat
  | .RECEIVED => 0
  | .PENDING => 0
  | .RUNNING_FETCH_THREADS => 10
  | .RUNNING_FETCH_THREADS_CATEGORY => 10
  | .INSERTING_SUCCESS => 20
  | .RUNNING_CLUSTERING => 40
  | .FINISH_CLUSTERING => 60
  | .RUNNING_AGENT_ANALYSIS => 80
  | .RUNNING_UNIT_TREND_ANALYSIS => 80
  | .COMPLETED => 100
  | .SUCCESS => 100
  | .FAILURE => 0
  | .ERROR => 0

/-- Python attribute access `TaskStatus.<name>` on the enumeration class:
returns the member for a defined member name and raises
`AttributeError(name)` otherwise (CPython enum semantics).  In
particular `lookupTaskStatusMember "CANCELLED"` fails, because the
enumeration in `task_status.py` defines no such member. -/
def lookupTaskStatusMember : String → Except PyExc TaskStatus
  | "RECEIVED" => .ok .RECEIVED
  | "PENDING" => .ok .PENDING
  | "RUNNING_FETCH_THREADS" => .ok .RUNNING_FETCH_THREADS
  | "RUNNING_FETCH_THREADS_CATEGORY" => .ok .RUNNING_FETCH_THREADS_CATEGORY
  | "INSERTING_SUCCESS" => .ok .INSERTING_SUCCESS
  | "RUNNING_CLUSTERING" => .ok .RUNNING_CLUSTERING
  | "FINISH_CLUSTERING" => .ok .FINISH_CLUSTERING
  | "RUNNING_AGENT_ANALYSIS" => .ok .RUNNING_AGENT_ANALYSIS
  | "RUNNING_UNIT_TREND_ANALYSIS" => .ok .RUNNING_UNIT_TREND_ANALYSIS
  | "COMPLETED" => .ok .COMPLETED
  | "SUCCESS" => .ok .SUCCESS
  | "FAILURE" => .ok .FAILURE
  | "ERROR" => .ok .ERROR
  | name => .error (.attributeError name)

/-! ## Data model of the clustering engine (`app/schemas/tasks/cluster_schema.py`) -/

/-- Opaque pass-through document metadata (`DocMetadata`): the fields the
schema requires; timestamps and additional fields are not needed by any
claim and are folded into the opaque strings. -/
structure DocMeta where
  content : String
  category : String
deriving DecidableEq, Repr

/-- One `(id, embedding vector, metadata)` tuple fetched from the vector
store (one row of the embeddings DataFrame). -/
structure FetchedDoc where
  id : String
  embedding : List Rat
  metadata : DocMeta
deriving DecidableEq, Repr

/-- `ClusteringParameters`: `auto_optimized` defaults to `True` and is
never passed explicitly by the task code. -/
structure ClusteringParameters where
  auto_optimized : Bool := true
  min_cluster_size : Nat
  min_samples : Nat
  metric : String
deriving DecidableEq, Repr

/-- `CoreDocument`: a cluster representative. -/
structure CoreDocument where
  id : String
  probability : Rat
  metadata : DocMeta
deriving DecidableEq, Repr

/-- `ClusterRecord` persisted to the `clusters` collection.  `created_at`
(wall-clock time) is omitted; no claim concerns it. -/
structure ClusterRecord where
  unit_id : String
  num_documents : Nat
  num_clusters : Nat
  parameters : ClusteringParameters
  core_docs : List CoreDocument
  cluster_id : Option String := none
deriving DecidableEq, Repr

/-- `ClusterTaskResult = TaskResult[ClusterRecord]` from
`base_task_result_schema.py`. -/
structure ClusterTaskResult where
  status : String
  message : Option String := none
  result : Option ClusterRecord := none
  transaction_id : Option String := none
deriving DecidableEq, Repr

/-- The `result` payload produced by the fetch stage
(`{"unit_ids": [...], "thread_ids": [...]}`). -/
structure StoringResult where
  unit_ids : List String
  thread_ids : List String
deriving DecidableEq, Repr

/-- The dictionary a chained stage receives from the previous stage
(shape of `StoringTaskResult.model_dump()` and of the ad-hoc error
dictionaries). -/
structure PrevReq where
  status : String
  message : Option String := none
  result : Option StoringResult := none
  transaction_id : Option String := none
deriving DecidableEq, Repr

/-- The possible return dictionaries of `cluster_unit_documents`. -/
inductive TaskOutput where
  | forwarded (prev : PrevReq)
  | errorDict (message : String) (unit_id : String)
  | clusterResult (r : ClusterTaskResult)
deriving DecidableEq, Repr

/-- The `status` field of a returned dictionary. -/
def TaskOutput.statusOf : TaskOutput → String
  | .forwarded p => p.status
  | .errorDict _ _ => "error"
  | .clusterResult r => r.status

/-- Observable side effects performed by the embedded functions, in
program order.  Status updates record the task id and status; the
optional `error_message`/`result` payloads of
`update_task_status_sync` are not inspected by any claim and are kept
out of the effect for brevity. -/
inductive Effect where
  | statusUpdate (task_id : Option String) (status : TaskStatus)
  | clusterInsert (record : ClusterRecord)
  | vectorInsert (ids : List String) (nspace : String)
  | revoke (celery_id : String)
  | questionClustersUpsert
deriving DecidableEq, Repr

/-- Whether an effect is a run-record status update. -/
def Effect.isStatusUpdate : Effect → Bool
  | .statusUpdate _ _ => true
  | _ => false

/-! ## Run-record store (`app/repositories/task_transaction_repository.py`) -/

/-- A stored task-transaction record (the fields claims inspect). -/
structure Transaction where
  status : TaskStatus
  progress : Nat
  task_name : String
  celery_task_id : Option String := none
  completed_at : Option Nat := none
  error_message : String := ""
deriving DecidableEq, Repr

/-- The `$set` document built by `update_task_status_sync` once the
transaction was found: a field is `some`/`true` exactly when the Python
code puts the corresponding key into `update_data`. -/
structure UpdateData where
  status : TaskStatus
  progress : Nat
  completed_at : Option Nat
  error_message : Option String
  result_set : Bool
  celery_task_id : Option String
deriving DecidableEq, Repr

/-- Builds `update_data` as `update_task_status_sync` does: progress is
looked up from the status table; `completed_at` is written only for
`COMPLETED` or `SUCCESS`; `error_message`, `result` and
`celery_task_id` are written only when truthy (`now` stands for
`datetime.now()`). -/
def mkUpdateData (now : Nat) (status : TaskStatus) (error_message : String := "")
    (result_nonempty : Bool := false) (celery_task_id : Option String := none) : UpdateData :=
  { status := status
    progress := TASK_STATUS_PROGRESS status
    completed_at :=
      if status = TaskStatus.COMPLETED ∨ status = TaskStatus.SUCCESS then some now else none
    error_message := if error_message ≠ "" then some error_message else none
    result_set := result_nonempty
    celery_task_id :=
      match celery_task_id with
      | some c => if c ≠ "" then some c else none
      | none => none }

/-- Applying the `$set` update to a stored record: keys absent from
`update_data` keep their previous value. -/
def applyUpdate (t : Transaction) (u : UpdateData) : Transaction :=
  { t with
    status := u.status
    progress := u.progress
    completed_at := match u.completed_at with | some v => some v | none => t.completed_at
    error_message := match u.error_message with | some v => v | none => t.error_message
    celery_task_id := match u.celery_task_id with | some v => some v | none => t.celery_task_id }

/-- Modelled from the spec: the set of terminal statuses named by the
specification invariant ("success/failure/cancelled", where success
covers both `COMPLETED` and the `SUCCESS` member; the code enumeration
has no cancelled member).  Used only to compare the spec invariant with
the source behaviour. -/
def specTerminalStatus : TaskStatus → Bool
  | .COMPLETED => true
  | .SUCCESS => true
  | .FAILURE => true
  | _ => false

/-! ## HTTP endpoints (`app/api/api_v1/endpoints/tasks.py`) -/

/-- A FastAPI `HTTPException` with status code and detail. -/
structure HttpException where
  code : Nat
  detail : String
deriving DecidableEq, Repr

/-- Python `str(e)` of an `HTTPException` ("404: Transaction not found"). -/
def HttpException.str (e : HttpException) : String :=
  toString e.code ++ ": " ++ e.detail

/-- Either a JSON response or an error response produced by raising
`HTTPException`. -/
inductive HttpResult (α : Type) where
  | ok (v : α)
  | err (code : Nat) (detail : String)
deriving DecidableEq, Repr

/-- Whether the endpoint raised an `HTTPException` (error response). -/
def HttpResult.isErr {α : Type} : HttpResult α → Bool
  | .ok _ => false
  | .err _ _ => true

/-- The JSON body returned by `GET /status/{transaction_id}`. -/
structure StatusView where
  transaction_id : String
  status : TaskStatus
  progress : Nat
  name : String
deriving DecidableEq, Repr

/-- The `try` body of `get_transaction_status`: look up the record and
raise a 404 `HTTPException` when it is missing. -/
def get_transaction_status_body (store : String → Option Transaction) (transaction_id : String) :
    Except HttpException StatusView :=
  match store transaction_id with
  | none => .error ⟨404, "Transaction not found"⟩
  | some t => .ok ⟨transaction_id, t.status, t.progress, t.task_name⟩

/-- `GET /status/{transaction_id}`: the whole body runs inside
`try ... except Exception as e`, and the handler re-raises every
exception — including the endpoint's own 404 `HTTPException` — as a
500 with detail `"Error fetching transaction status: " + str(e)`. -/
def get_transaction_status (store : String → Option Transaction) (transaction_id : String) :
    HttpResult StatusView :=
  match get_transaction_status_body store transaction_id with
  | .ok v => .ok v
  | .error e => .err 500 ("Error fetching transaction status: " ++ e.str)

/-- The JSON body returned by `POST /cancel_chain/{transaction_id}` on
success. -/
structure CancelView where
  transaction_id : String
  celery_task_id : String
  status : String
  message : String
deriving DecidableEq, Repr

/-- `POST /cancel_chain/{transaction_id}` from `tasks.py`.  `children cid`
models `AsyncResult(cid).children`.  The body runs inside
`try ... except Exception` which converts every exception to a 500
response; the two explicit 404s are raised inside the `try` and are
therefore also converted.  After revoking the parent and child tasks
the code evaluates `TaskStatus.CANCELLED`; that member does not exist,
so the attribute lookup raises `AttributeError("CANCELLED")` before
`update_task_status_sync` can run. -/
def cancel_task_chain (store : String → Option Transaction) (children : String → List String)
    (transaction_id : String) : HttpResult CancelView × List Effect :=
  match store transaction_id with
  | none =>
      (.err 500 ("Error cancelling task chain: " ++ HttpException.str ⟨404, "Transaction not found"⟩), [])
  | some t =>
      match t.celery_task_id with
      | none =>
          (.err 500 ("Error cancelling task chain: " ++
            HttpException.str ⟨404, "No Celery task ID found for this transaction"⟩), [])
      | some cid =>
          match lookupTaskStatusMember "CANCELLED" with
          | .error e =>
              (.err 500 ("Error cancelling task chain: " ++ e.str),
               Effect.revoke cid :: (children cid).map Effect.revoke)
          | .ok st =>
              (.ok ⟨transaction_id, cid, "CANCELLATION_REQUESTED",
                    "Task chain cancellation has been requested"⟩,
               (Effect.revoke cid :: (children cid).map Effect.revoke) ++
                 [Effect.statusUpdate (some transaction_id) st])

/-! ## Clustering engine (`app/tasks/thread_clustering_tasks.py`) -/

/-- Per-document output of one HDBSCAN fit: a label per document (the
reserved label `-1` denotes noise) and a membership probability per
document, row-aligned with the input documents. -/
structure HdbResult where
  labels : List Int
  probabilities : List Rat
deriving DecidableEq, Repr

/-- One candidate parameter triple of the grid search (also the final
parameter choice). -/
structure Cand where
  size : Nat
  samples : Nat
  metric : String
deriving DecidableEq, Repr

/-- External collaborators of the clustering task: the vector-store fetch,
the process memory readings at the two `get_memory_usage` call sites
(in MB), the HDBSCAN solver (which may raise), and the result of
`db.clusters.insert_one(...)` (`none` models a falsy `inserted_id`). -/
structure ClusterEnv where
  fetch : List String → List FetchedDoc
  memory_mb_opt : Nat
  memory_mb_final : Nat
  hdbscan : Nat → Nat → String → List FetchedDoc → Except PyExc HdbResult
  insert_id : Option String

/-- `num_clusters = len(set(labels)) - (1 if -1 in labels else 0)`. -/
def numClusters (labels : List Int) : Nat :=
  labels.dedup.length - (if (-1 : Int) ∈ labels then 1 else 0)

/-- `noise_percentage = (labels == -1).sum() / len(labels) if -1 in labels else 0`. -/
def noiseFraction (labels : List Int) : Rat :=
  if (-1 : Int) ∈ labels then (labels.count (-1) : Rat) / (labels.length : Rat) else 0

/-- The grid-search score of one fitted candidate:
`-1` when `num_clusters <= 1` (disqualified), otherwise
`num_clusters * (1 - noise_percentage)`. -/
def candScore (labels : List Int) : Rat :=
  if numClusters labels ≤ 1 then -1 else (numClusters labels : Rat) * (1 - noiseFraction labels)

/-- `min_cluster_sizes = [2, 5, 10]`. -/
def min_cluster_sizes : List Nat := [2, 5, 10]

/-- `min_samples_params = [2, 5]`. -/
def min_samples_params : List Nat := [2, 5]

/-- `metrics = ['cosine']`. -/
def metrics : List String := ["cosine"]

/-- The grid of candidates in loop order, with the invalid combinations
(`min_samples > min_cluster_size`) skipped by `continue`. -/
def gridCands : List Cand :=
  metrics.flatMap fun m =>
    min_cluster_sizes.flatMap fun s =>
      (min_samples_params.filter fun sm => ¬ s < sm).map fun sm => ⟨s, sm, m⟩

/-- `best_params = (5, 5, 'cosine')`, the initial/default selection. -/
def defaultCand : Cand := ⟨5, 5, "cosine"⟩

/-- One iteration of the grid-search loop over the accumulator
`(best_score, best_params)`: a candidate whose fit raises is skipped,
otherwise the candidate is scored and replaces the best exactly when
its score is strictly greater. -/
def optStep (env : ClusterEnv) (docs : List FetchedDoc) (acc : Rat × Cand) (c : Cand) :
    Rat × Cand :=
  match env.hdbscan c.size c.samples c.metric docs with
  | .error _ => acc
  | .ok r => if acc.1 < candScore r.labels then (candScore r.labels, c) else acc

/-- `optimize_hdbscan_parameters`: under memory pressure (more than
1000 MB) the safe default is returned without searching; otherwise the
grid search runs with `best_score` initialised to `-1` and the default
parameters as initial best. -/
def optimize_hdbscan_parameters (env : ClusterEnv) (docs : List FetchedDoc) : Cand :=
  if env.memory_mb_opt > 1000 then defaultCand
  else (gridCands.foldl (optStep env docs) ((-1 : Rat), defaultCand)).2

/-- `cluster_docs['probability'].idxmax()`: the first row attaining the
maximum probability (pandas `idxmax` returns the first occurrence). -/
def pickTop : List (FetchedDoc × Rat) → Option (FetchedDoc × Rat)
  | [] => none
  | x :: xs =>
      match pickTop xs with
      | none => some x
      | some y => if y.2 > x.2 then some y else some x

/-- The statistics dictionary of one clustering run (the
`cluster_distribution` entry is not inspected by any claim and is
omitted). -/
structure ClusterStats where
  num_clusters : Nat
  noise_percentage : Rat
deriving DecidableEq, Repr

/-- `perform_hdbscan_clustering`: raises `MemoryError` above the memory
ceiling, re-raises solver errors, and otherwise selects, for each
distinct non-noise label, the row of maximum probability as that
cluster's core document.  Labels and probabilities are row-aligned
with the documents (`zip`). -/
def perform_hdbscan_clustering (env : ClusterEnv) (docs : List FetchedDoc) (c : Cand) :
    Except PyExc (List CoreDocument × ClusterStats) :=
  if env.memory_mb_final > 1000 then
    .error (.memoryError "High memory usage detected before clustering")
  else
    match env.hdbscan c.size c.samples c.metric docs with
    | .error e => .error e
    | .ok r =>
        let rows := docs.zip (r.labels.zip r.probabilities)
        let nonNoiseLabels := (r.labels.filter fun l => l ≠ -1).dedup
        let core_docs := nonNoiseLabels.filterMap fun lab =>
          (pickTop (((rows.filter fun t => t.2.1 = lab).map fun t => (t.1, t.2.2)))).map
            fun p => CoreDocument.mk p.1.id p.2 p.1.metadata
        .ok (core_docs, ⟨numClusters r.labels, noiseFraction r.labels⟩)

/-- `get_embeddings_from_db`: returns the empty DataFrame immediately on an
empty id list, otherwise fetches the vectors for the ids from the
store. -/
def get_embeddings_from_db (env : ClusterEnv) (ids : List String) : List FetchedDoc :=
  if ids.isEmpty then [] else env.fetch ids

/-- The parameter choice of the main path (source lines 191–203): when
`auto_optimize` is set and at least 5 embeddings were fetched, the grid
search chooses; otherwise the passed parameters are kept with the
default `cosine` metric.  (The surrounding `try/except` falls back to
`(5, 5, 'cosine')`, which the search's own exception handler already
returns, so the handler adds no behaviour.) -/
def chosenParams (env : ClusterEnv) (auto_optimize : Bool) (min_cluster_size min_samples : Nat)
    (edf : List FetchedDoc) : Cand :=
  if auto_optimize && decide (5 ≤ edf.length) then optimize_hdbscan_parameters env edf
  else ⟨min_cluster_size, min_samples, "cosine"⟩

/-- The `ClusterRecord` built by the bypass branch: one core document per
fetched row with probability `1.0`, and parameters
`(min_cluster_size=1, min_samples=len(core_docs), metric='cosine')`;
`num_clusters = len(core_docs)` and the record is persisted before
`cluster_id` is assigned. -/
def bypassRecord (unit_id : String) (edf : List FetchedDoc) : ClusterRecord :=
  ⟨unit_id, edf.length,
   (edf.map fun d => CoreDocument.mk d.id 1 d.metadata).length,
   ⟨true, 1, (edf.map fun d => CoreDocument.mk d.id 1 d.metadata).length, "cosine"⟩,
   edf.map fun d => CoreDocument.mk d.id 1 d.metadata, none⟩

/-- The bypass branch of `cluster_unit_documents` for fewer than 5 thread
ids (source lines 97–166), applied to the already-fetched embeddings. -/
def bypassBranch (env : ClusterEnv) (unit_id : String) (ptid : Option String)
    (edf : List FetchedDoc) (eff0 : List Effect) : Except PyExc TaskOutput × List Effect :=
  if edf.isEmpty then
    (.ok (.errorDict ("No documents found for unit_id: " ++ unit_id) unit_id), eff0)
  else
    match env.insert_id with
    | none =>
        (.ok (.errorDict "Failed to save clustering results to database" unit_id),
         eff0 ++ [.clusterInsert (bypassRecord unit_id edf)])
    | some cid =>
        (.ok (.clusterResult
          ⟨"success", some "Retrieved questions directly (no clustering needed)",
           some { bypassRecord unit_id edf with cluster_id := some cid }, ptid⟩),
         eff0 ++ [.clusterInsert (bypassRecord unit_id edf), .statusUpdate ptid .COMPLETED])

/-- The degraded core documents used when the final clustering call
raises: the first 10 rows, one cluster per document, probability
`1.0`. -/
def degradeCoreDocs (edf : List FetchedDoc) : List CoreDocument :=
  (edf.take 10).map fun d => CoreDocument.mk d.id 1 d.metadata

/-- The `(core_docs, cluster_stats)` of the main path: the result of the
final clustering call, or — when that call raises — the degraded core
documents with `num_clusters = len(core_docs)` and no noise. -/
def mainCoreStats (env : ClusterEnv) (edf : List FetchedDoc) (cand : Cand) :
    List CoreDocument × ClusterStats :=
  match perform_hdbscan_clustering env edf cand with
  | .ok cs => cs
  | .error _ => (degradeCoreDocs edf, ⟨(degradeCoreDocs edf).length, 0⟩)

/-- The `ClusterRecord` built by the main path (persisted before
`cluster_id` is assigned). -/
def mainRecord (env : ClusterEnv) (unit_id : String) (auto_optimize : Bool)
    (min_cluster_size min_samples : Nat) (edf : List FetchedDoc) : ClusterRecord :=
  ⟨unit_id, edf.length,
   (mainCoreStats env edf (chosenParams env auto_optimize min_cluster_size min_samples edf)).2.num_clusters,
   ⟨true, (chosenParams env auto_optimize min_cluster_size min_samples edf).size,
    (chosenParams env auto_optimize min_cluster_size min_samples edf).samples,
    (chosenParams env auto_optimize min_cluster_size min_samples edf).metric⟩,
   (mainCoreStats env edf (chosenParams env auto_optimize min_cluster_size min_samples edf)).1,
   none⟩

/-- The main branch of `cluster_unit_documents` for at least 5 thread ids
(source lines 168–280), applied to the already-fetched embeddings:
choose parameters, run the final clustering (degrading if it raises),
persist the record, and mark the transaction completed. -/
def mainBranch (env : ClusterEnv) (unit_id : String) (ptid : Option String)
    (auto_optimize : Bool) (min_cluster_size min_samples : Nat)
    (edf : List FetchedDoc) (eff0 : List Effect) : Except PyExc TaskOutput × List Effect :=
  if edf.isEmpty then
    (.ok (.errorDict ("No documents found for unit_id: " ++ unit_id) unit_id), eff0)
  else
    match env.insert_id with
    | none =>
        (.ok (.errorDict "Failed to save clustering results to database" unit_id),
         eff0 ++ [.clusterInsert (mainRecord env unit_id auto_optimize min_cluster_size min_samples edf)])
    | some cid =>
        (.ok (.clusterResult
          ⟨"success", some "Clustering completed successfully",
           some { mainRecord env unit_id auto_optimize min_cluster_size min_samples edf with
                    cluster_id := some cid }, ptid⟩),
         eff0 ++ [.clusterInsert (mainRecord env unit_id auto_optimize min_cluster_size min_samples edf),
                  .statusUpdate ptid .COMPLETED])

/-- `cluster_unit_documents`, the clustering stage.  The first statement of
the `try` body checks the upstream status and forwards the input
unchanged when it is not `"success"`.  When the upstream result
payload is missing, `prev_req.get("result").get("thread_ids")` raises
`AttributeError` before `task_transaction_repo` is assigned, and the
`except` handler — which guards `prev_transaction_id` with a
`locals()` check but uses `task_transaction_repo` unguarded — itself
raises `NameError`, which escapes the stage.  Otherwise the
transaction is marked `RUNNING_CLUSTERING` and the bypass or main
branch runs; every exception raised there is caught by the stage-level
handler and converted to an error dictionary (the handler's own
status update to `FAILURE` cannot raise, because
`update_task_status_sync` swallows its errors). -/
def cluster_unit_documents (env : ClusterEnv) (prev_req : PrevReq) (unit_id : String)
    (auto_optimize : Bool := true) (min_cluster_size : Nat := 2) (min_samples : Nat := 2) :
    Except PyExc TaskOutput × List Effect :=
  if prev_req.status ≠ "success" then (.ok (.forwarded prev_req), [])
  else
    match prev_req.result with
    | none => (.error (.nameError "name task_transaction_repo is not defined"), [])
    | some res =>
        if res.thread_ids.length < 5 then
          bypassBranch env unit_id prev_req.transaction_id
            (get_embeddings_from_db env res.thread_ids)
            [Effect.statusUpdate prev_req.transaction_id .RUNNING_CLUSTERING]
        else
          mainBranch env unit_id prev_req.transaction_id auto_optimize min_cluster_size min_samples
            (get_embeddings_from_db env res.thread_ids)
            [Effect.statusUpdate prev_req.transaction_id .RUNNING_CLUSTERING]

/-! ## Fetch/ingest stage (`app/tasks/fetch_insert_to_vector_db_tasks.py`) -/

/-- One forum thread as returned by the Ed client.  `subcategory` is the
empty string when absent (Python falsiness). -/
structure ThreadRec where
  id : String
  title : String
  document : String
  category : String
  subcategory : String
  created_at : String
deriving DecidableEq, Repr

/-- One teaching week of the unit document. -/
structure Week where
  week_id : String
  teaching_week_number : Nat
  week_type : String
deriving DecidableEq, Repr

/-- One record upserted into the vector store. -/
structure StoredDoc where
  id : String
  category : String
  content : String
  created_at : String
  week_id : Option String
  week_number : Option Nat
  week_type : Option String
deriving DecidableEq, Repr

/-- External collaborators of the fetch stage: the user lookup, the Ed
API thread listing, the date-window predicate
(`is_within_interval(thread.created_at, start_date, end_date)`), the
unit document's weeks, and the week-assignment predicate
(`is_within_interval(thread.created_at, week start, week end)`). -/
structure FetchEnv where
  user_found : Bool
  threads : List ThreadRec
  hasDateRange : Bool
  inRange : ThreadRec → Bool
  unit_weeks : Option (List Week)
  weekMatches : Week → ThreadRec → Bool

/-- The vector-store record built for one thread (source lines 136–148). -/
def mkStoredDoc (env : FetchEnv) (weeks : List Week) (t : ThreadRec) : StoredDoc :=
  let week := weeks.find? fun w => env.weekMatches w t
  { id := t.id
    category := if t.subcategory ≠ "" then t.subcategory else t.category
    content := "Title: " ++ t.title ++ "\nContent: " ++ t.document
    created_at := t.created_at
    week_id := week.map fun w => w.week_id
    week_number := week.map fun w => w.teaching_week_number
    week_type := week.map fun w => w.week_type }

/-- `fetch_and_store_threads_by_unit`, the ingest stage.  It has no
stage-level exception handler: an unknown user raises `TypeError`
(`user['api_key']` on `None`), a missing unit document raises
`AttributeError` (`None.get("weeks", [])`), and — after the documents
were upserted — an empty document list records status `ERROR` and
deliberately raises `ValueError`.  On success it records
`INSERTING_SUCCESS` and returns the dumped `StoringTaskResult`. -/
def fetch_and_store_threads_by_unit (env : FetchEnv) (user_id unit_id transaction_id : String) :
    Except PyExc PrevReq × List Effect :=
  let e0 := Effect.statusUpdate (some transaction_id) .RUNNING_FETCH_THREADS
  if ¬ env.user_found then
    (.error (.typeError "NoneType object is not subscriptable"), [e0])
  else
    let threads := if env.hasDateRange then env.threads.filter env.inRange else env.threads
    match env.unit_weeks with
    | none => (.error (.attributeError "NoneType object has no attribute get"), [e0])
    | some weeks =>
        let documents := threads.map (mkStoredDoc env weeks)
        let ins := Effect.vectorInsert (documents.map fun d => d.id) unit_id
        if documents.length = 0 then
          (.error (.valueError ("No threads found for unit " ++ unit_id ++
             " in the specified date range, please check the dates")),
           [e0, ins, Effect.statusUpdate (some transaction_id) .ERROR])
        else
          (.ok ⟨"success",
                some ("Fetched and stored " ++ toString threads.length ++
                  " threads for unit " ++ unit_id),
                some ⟨[unit_id], threads.map fun t => t.id⟩,
                some transaction_id⟩,
           [e0, ins, Effect.statusUpdate (some transaction_id) .INSERTING_SUCCESS])

/-! ## FAQ analysis stage (`app/tasks/agents_tasks.py`, `run_faq_agent_analysis`) -/

/-- The dictionary the analysis stage receives from the clustering stage.
The error dictionaries built by `cluster_unit_documents` carry a
`unit_id` key that is not a `TaskResult` field; the pydantic parse
`ClusterTaskResult(**clustering_result)` drops it. -/
structure FaqInput where
  status : String
  message : Option String := none
  result : Option ClusterRecord := none
  transaction_id : Option String := none
  unit_id : Option String := none
deriving DecidableEq, Repr

/-- The possible return dictionaries of `run_faq_agent_analysis`. -/
inductive FaqOutput where
  | errorForward (r : ClusterTaskResult)
  | warning (message : String) (unit_id : String)
  | errorDict (message : String) (unit_id : String)
  | success (report : String) (unit_id : String) (transaction_id : Option String)
deriving DecidableEq, Repr

/-- External collaborators of the analysis stage: the unit document (only
its presence matters to the control flow; its contents feed the crew
prompt, abstracted away) and the CrewAI service run, which produces an
opaque report payload or raises. -/
structure FaqEnv where
  unit_found : Bool
  crew : List CoreDocument → Except PyExc String

/-- `run_faq_agent_analysis`.  Before inspecting the upstream status it
updates the run record to status `"running agent analysis"` (the raw
string equal to `TaskStatus.RUNNING_AGENT_ANALYSIS`, recorded as that
member) and re-parses the input through
`ClusterTaskResult(**clustering_result)`.  Only then is the status
field compared to `"error"`, in which case the parsed model — not the
raw input — is returned.  A non-error input without a result payload
raises `AttributeError` at `clustering_result.result.cluster_id`.
There is no stage-level exception handler, so a raising crew run
escapes.  The final question-cluster upsert loop is abstracted into
one effect. -/
def run_faq_agent_analysis (env : FaqEnv) (input : FaqInput) :
    Except PyExc FaqOutput × List Effect :=
  let tid := input.transaction_id
  let e0 := Effect.statusUpdate tid .RUNNING_AGENT_ANALYSIS
  let parsed : ClusterTaskResult := ⟨input.status, input.message, input.result, input.transaction_id⟩
  if parsed.status = "error" then (.ok (.errorForward parsed), [e0])
  else
    match parsed.result with
    | none => (.error (.attributeError "NoneType object has no attribute cluster_id"), [e0])
    | some rec =>
        let core := rec.core_docs
        if core.isEmpty then
          (.ok (.warning "No clustered questions found to analyze" rec.unit_id), [e0])
        else if ¬ env.unit_found then
          (.ok (.errorDict ("Unit data not found for unit_id: " ++ rec.unit_id) rec.unit_id), [e0])
        else
          match env.crew core with
          | .error e => (.error e, [e0])
          | .ok report =>
              (.ok (.success report rec.unit_id tid),
               [e0, Effect.statusUpdate tid .COMPLETED, Effect.questionClustersUpsert])

/-! ## Shared concrete instances and helper lemmas -/

/-- A throwaway clustering environment for closed instances whose
behaviour does not depend on the collaborators. -/
def envX : ClusterEnv :=
  ⟨fun _ => [], 0, 0, fun _ _ _ _ => .error (.other "unused"), none⟩

/-- A throwaway analysis-stage environment. -/
def faqEnvX : FaqEnv := ⟨false, fun _ => .error (.other "unused")⟩

/-- Every exit of the bypass branch is a returned dictionary, never an
exception. -/
lemma bypassBranch_ok (env : ClusterEnv) (unit_id : String) (ptid : Option String)
    (edf : List FetchedDoc) (eff0 : List Effect) :
    ∃ out, (bypassBranch env unit_id ptid edf eff0).1 = Except.ok out := by
  unfold bypassBranch
  by_cases he : edf.isEmpty = true
  · rw [if_pos he]; exact ⟨_, rfl⟩
  · rw [if_neg he]
    cases hins : env.insert_id with
    | none => simp only [hins]; exact ⟨_, rfl⟩
    | some cid => simp only [hins]; exact ⟨_, rfl⟩

/-- Every exit of the main branch is a returned dictionary, never an
exception: a raising final clustering is degraded, not propagated. -/
lemma mainBranch_ok (env : ClusterEnv) (unit_id : String) (ptid : Option String)
    (a : Bool) (mcs ms : Nat) (edf : List FetchedDoc) (eff0 : List Effect) :
    ∃ out, (mainBranch env unit_id ptid a mcs ms edf eff0).1 = Except.ok out := by
  unfold mainBranch
  by_cases he : edf.isEmpty = true
  · rw [if_pos he]; exact ⟨_, rfl⟩
  · rw [if_neg he]
    cases hins : env.insert_id with
    | none => simp only [hins]; exact ⟨_, rfl⟩
    | some cid => simp only [hins]; exact ⟨_, rfl⟩

/-- Unfolding of the clustering stage once the upstream status is
`"success"` and the result payload is present. -/
lemma cluster_unit_documents_some (env : ClusterEnv) (prev : PrevReq) (unit_id : String)
    (a : Bool) (mcs ms : Nat) (r : StoringResult)
    (hs : prev.status = "success") (h : prev.result = some r) :
    cluster_unit_documents env prev unit_id a mcs ms =
      if r.thread_ids.length < 5 then
        bypassBranch env unit_id prev.transaction_id
          (get_embeddings_from_db env r.thread_ids)
          [Effect.statusUpdate prev.transaction_id .RUNNING_CLUSTERING]
      else
        mainBranch env unit_id prev.transaction_id a mcs ms
          (get_embeddings_from_db env r.thread_ids)
          [Effect.statusUpdate prev.transaction_id .RUNNING_CLUSTERING] := by
  unfold cluster_unit_documents
  rw [if_neg (by simp [hs]), h]

/-! ## Claim theorems -/

/-- C1: the claim says `cancel` is idempotent, never raises on a second
call, and leaves the run record's status `CANCELLED`.  The code cannot
do this: the `TaskStatus` enumeration has no `CANCELLED` member, so
the endpoint's own `TaskStatus.CANCELLED` lookup raises
`AttributeError`, the blanket handler converts every call into an
HTTP 500 error response, and no status update is ever performed —
for every store, every child map and every transaction id. -/
theorem claim1_cancel_always_errors_never_sets_status
    (store : String → Option Transaction) (children : String → List String)
    (transaction_id : String) :
    (cancel_task_chain store children transaction_id).1.isErr = true ∧
    ∀ e ∈ (cancel_task_chain store children transaction_id).2, e.isStatusUpdate = false := by
  unfold cancel_task_chain
  cases h : store transaction_id with
  | none => exact ⟨rfl, fun e he => absurd he (List.not_mem_nil e)⟩
  | some t =>
      dsimp only
      cases hc : t.celery_task_id with
      | none => exact ⟨rfl, fun e he => absurd he (List.not_mem_nil e)⟩
      | some cid =>
          refine ⟨rfl, ?_⟩
          intro e he
          have he2 : e ∈ Effect.revoke cid :: (children cid).map Effect.revoke := he
          simp only [List.mem_cons, List.mem_map] at he2
          rcases he2 with rfl | ⟨a, _, rfl⟩ <;> rfl

/-- C2: the claim says an unknown run id yields `NotFound` (404).  In the
code the 404 `HTTPException` is raised inside the endpoint's own
`try`, whose `except Exception` handler re-raises it as a 500, so an
unknown id always produces a 500, never a 404. -/
theorem claim2_get_status_unknown_is_500 (store : String → Option Transaction)
    (transaction_id : String) (h : store transaction_id = none) :
    get_transaction_status store transaction_id =
      HttpResult.err 500 "Error fetching transaction status: 404: Transaction not found" := by
  unfold get_transaction_status get_transaction_status_body
  rw [h]
  rfl

/-- Closed instance of the C2 theorem at an empty store. -/
theorem claim2_witness :
    ((fun _ : String => (none : Option Transaction)) "missing" = none) ∧
    get_transaction_status (fun _ => none) "missing" =
      HttpResult.err 500 "Error fetching transaction status: 404: Transaction not found" :=
  ⟨rfl, claim2_get_status_unknown_is_500 (fun _ => none) "missing" rfl⟩

/-- C3 counterexample: on an upstream error input the FAQ analysis stage
performs a run-record status update (to `RUNNING_AGENT_ANALYSIS`)
before it checks the status field, and the value it returns is the
re-parsed model, which has dropped the input's `unit_id` key — so the
stage neither "checks that field first" nor "returns the input
unchanged without performing any work". -/
theorem claim3_counterexample :
    (run_faq_agent_analysis faqEnvX ⟨"error", some "ingest failed", none, none, some "u1"⟩).2 =
      [Effect.statusUpdate none TaskStatus.RUNNING_AGENT_ANALYSIS] ∧
    (run_faq_agent_analysis faqEnvX ⟨"error", some "ingest failed", none, none, some "u1"⟩).1 =
      Except.ok (FaqOutput.errorForward ⟨"error", some "ingest failed", none, none⟩) := by
  exact ⟨rfl, rfl⟩

/-- C3 (amended): the clustering stage does satisfy the contract — it
checks the upstream status field first and, when it is not
`"success"`, returns the input unchanged having performed no
run-record update, created no `ClusterRun`, and run no downstream
computation (its effect list is empty). -/
theorem claim3_cluster_stage_checks_first (env : ClusterEnv) (prev : PrevReq) (unit_id : String)
    (a : Bool) (mcs ms : Nat) (h : prev.status ≠ "success") :
    cluster_unit_documents env prev unit_id a mcs ms =
      (Except.ok (TaskOutput.forwarded prev), []) := by
  unfold cluster_unit_documents
  rw [if_pos h]

/-- Closed instance of the C3 amended theorem at an error input. -/
theorem claim3_witness :
    ((⟨"error", some "boom", none, none⟩ : PrevReq).status ≠ "success") ∧
    cluster_unit_documents envX ⟨"error", some "boom", none, none⟩ "u1" true 2 2 =
      (Except.ok (TaskOutput.forwarded ⟨"error", some "boom", none, none⟩), []) :=
  ⟨by decide, claim3_cluster_stage_checks_first envX ⟨"error", some "boom", none, none⟩ "u1"
    true 2 2 (by decide)⟩

/-- A concrete fetch-stage environment in which the Ed client returns no
threads at all. -/
def fetchEnv0 : FetchEnv := ⟨true, [], false, fun _ => true, some [], fun _ _ => false⟩

/-- C4 counterexample: the fetch stage deliberately raises `ValueError`
(after recording status `ERROR`) when zero documents were produced, so
an exception does cross that stage boundary instead of being converted
into a returned tagged error result. -/
theorem claim4_counterexample :
    (fetch_and_store_threads_by_unit fetchEnv0 "user1" "unit1" "t1").1 =
      Except.error (PyExc.valueError
        "No threads found for unit unit1 in the specified date range, please check the dates") := by
  rfl

/-- C4 (amended): the clustering stage is exception-free at its boundary —
whenever the incoming result object carries its `result` payload,
every internal failure (empty fetch, memory guard, solver error,
failed persistence) is converted into a returned dictionary — while
the fetch stage raises `ValueError` on zero documents. -/
theorem claim4_cluster_stage_never_raises (env : ClusterEnv) (prev : PrevReq) (unit_id : String)
    (a : Bool) (mcs ms : Nat) (r : StoringResult) (h : prev.result = some r) :
    ∃ out, (cluster_unit_documents env prev unit_id a mcs ms).1 = Except.ok out := by
  by_cases hs : prev.status = "success"
  · rw [cluster_unit_documents_some env prev unit_id a mcs ms r hs h]
    by_cases h5 : r.thread_ids.length < 5
    · rw [if_pos h5]; exact bypassBranch_ok _ _ _ _ _
    · rw [if_neg h5]; exact mainBranch_ok _ _ _ _ _ _ _ _
  · unfold cluster_unit_documents
    rw [if_pos hs]
    exact ⟨_, rfl⟩

/-- Closed instance of the C4 amended theorem: even with an empty vector
store and a failing insert the clustering stage returns a dictionary. -/
theorem claim4_witness :
    ((⟨"success", none, some ⟨["u1"], ["a"]⟩, some "t1"⟩ : PrevReq).result =
      some ⟨["u1"], ["a"]⟩) ∧
    ∃ out, (cluster_unit_documents envX ⟨"success", none, some ⟨["u1"], ["a"]⟩, some "t1"⟩
      "u1" true 2 2).1 = Except.ok out :=
  ⟨rfl, claim4_cluster_stage_never_raises envX ⟨"success", none, some ⟨["u1"], ["a"]⟩, some "t1"⟩
    "u1" true 2 2 ⟨["u1"], ["a"]⟩ rfl⟩

/-- C8 counterexample: on an empty document input the clustering stage
returns a dictionary tagged `"error"`, not `"warning"`. -/
theorem claim8_counterexample :
    (cluster_unit_documents envX ⟨"success", none, some ⟨[], []⟩, some "t1"⟩ "u1" true 2 2).1 =
      Except.ok (TaskOutput.errorDict "No documents found for unit_id: u1" "u1") ∧
    TaskOutput.statusOf (TaskOutput.errorDict "No documents found for unit_id: u1" "u1") ≠
      "warning" := by
  exact ⟨rfl, by decide⟩

/-- C8 (amended): for an empty document input the clustering stage raises
no exception and returns a result tagged `"error"` whose message
mentions that no documents were found; the only side effect is the
`RUNNING_CLUSTERING` status update — no `ClusterRun` is created. -/
theorem claim8_empty_input_error_result (env : ClusterEnv) (prev : PrevReq) (unit_id : String)
    (a : Bool) (mcs ms : Nat) (r : StoringResult)
    (hs : prev.status = "success") (hr : prev.result = some r) (ht : r.thread_ids = []) :
    cluster_unit_documents env prev unit_id a mcs ms =
      (Except.ok (TaskOutput.errorDict ("No documents found for unit_id: " ++ unit_id) unit_id),
       [Effect.statusUpdate prev.transaction_id TaskStatus.RUNNING_CLUSTERING]) ∧
    TaskOutput.statusOf (TaskOutput.errorDict ("No documents found for unit_id: " ++ unit_id)
      unit_id) = "error" := by
  constructor
  · rw [cluster_unit_documents_some env prev unit_id a mcs ms r hs hr]
    rw [if_pos (by rw [ht]; decide)]
    unfold bypassBranch get_embeddings_from_db
    rw [ht]
    rfl
  · rfl

/-- Closed instance of the C8 amended theorem. -/
theorem claim8_witness :
    ((⟨"success", none, some ⟨[], []⟩, some "t1"⟩ : PrevReq).status = "success") ∧
    cluster_unit_documents envX ⟨"success", none, some ⟨[], []⟩, some "t1"⟩ "u1" true 2 2 =
      (Except.ok (TaskOutput.errorDict "No documents found for unit_id: u1" "u1"),
       [Effect.statusUpdate (some "t1") TaskStatus.RUNNING_CLUSTERING]) :=
  ⟨rfl, ((claim8_empty_input_error_result envX ⟨"success", none, some ⟨[], []⟩, some "t1"⟩ "u1"
    true 2 2 ⟨[], []⟩ rfl rfl rfl).1)⟩

/-- A nonempty list is not `isEmpty`. -/
lemma isEmpty_false_of_ne_nil {α : Type} {l : List α} (h : l ≠ []) : l.isEmpty = false := by
  cases l with
  | nil => exact absurd rfl h
  | cons x xs => rfl

/-- Full behaviour of the clustering stage on the bypass path: fewer than
5 thread ids, a nonempty fetch, and a successful insert. -/
lemma bypass_spec (env : ClusterEnv) (prev : PrevReq) (unit_id : String) (a : Bool)
    (mcs ms : Nat) (r : StoringResult) (cid : String)
    (hs : prev.status = "success") (hr : prev.result = some r)
    (h5 : r.thread_ids.length < 5) (hne : r.thread_ids ≠ [])
    (hfne : env.fetch r.thread_ids ≠ []) (hins : env.insert_id = some cid) :
    cluster_unit_documents env prev unit_id a mcs ms =
      (Except.ok (TaskOutput.clusterResult
        ⟨"success", some "Retrieved questions directly (no clustering needed)",
         some { bypassRecord unit_id (env.fetch r.thread_ids) with cluster_id := some cid },
         prev.transaction_id⟩),
       [Effect.statusUpdate prev.transaction_id .RUNNING_CLUSTERING,
        Effect.clusterInsert (bypassRecord unit_id (env.fetch r.thread_ids)),
        Effect.statusUpdate prev.transaction_id .COMPLETED]) := by
  rw [cluster_unit_documents_some env prev unit_id a mcs ms r hs hr, if_pos h5]
  unfold bypassBranch
  have hget : get_embeddings_from_db env r.thread_ids = env.fetch r.thread_ids := by
    unfold get_embeddings_from_db
    rw [isEmpty_false_of_ne_nil hne]
    rfl
  rw [hget, if_neg (by simp [isEmpty_false_of_ne_nil hfne]), hins]
  rfl

/-- Full behaviour of the clustering stage on the main path with a
successful insert: the record and effects are those of `mainRecord`,
whatever the outcome of the final clustering call. -/
lemma main_spec (env : ClusterEnv) (prev : PrevReq) (unit_id : String) (a : Bool)
    (mcs ms : Nat) (r : StoringResult) (cid : String)
    (hs : prev.status = "success") (hr : prev.result = some r)
    (h5 : ¬ r.thread_ids.length < 5)
    (hfne : env.fetch r.thread_ids ≠ []) (hins : env.insert_id = some cid) :
    cluster_unit_documents env prev unit_id a mcs ms =
      (Except.ok (TaskOutput.clusterResult
        ⟨"success", some "Clustering completed successfully",
         some { mainRecord env unit_id a mcs ms (env.fetch r.thread_ids) with
                  cluster_id := some cid },
         prev.transaction_id⟩),
       [Effect.statusUpdate prev.transaction_id .RUNNING_CLUSTERING,
        Effect.clusterInsert (mainRecord env unit_id a mcs ms (env.fetch r.thread_ids)),
        Effect.statusUpdate prev.transaction_id .COMPLETED]) := by
  have hne : r.thread_ids ≠ [] := by
    intro h0
    rw [h0] at h5
    exact h5 (by decide)
  rw [cluster_unit_documents_some env prev unit_id a mcs ms r hs hr, if_neg h5]
  unfold mainBranch
  have hget : get_embeddings_from_db env r.thread_ids = env.fetch r.thread_ids := by
    unfold get_embeddings_from_db
    rw [isEmpty_false_of_ne_nil hne]
    rfl
  rw [hget, if_neg (by simp [isEmpty_false_of_ne_nil hfne]), hins]
  rfl

/-- C5: for a nonempty input of fewer than 5 documents (all of which the
store fetches, and with a working insert), the clustering stage
bypasses HDBSCAN and returns the bypass success result with one core
document per document, each with probability `1.0`, and a recorded
cluster count equal to the document count. -/
theorem claim5_small_corpus_bypass (env : ClusterEnv) (prev : PrevReq) (unit_id : String)
    (a : Bool) (mcs ms : Nat) (r : StoringResult) (cid : String)
    (hs : prev.status = "success") (hr : prev.result = some r)
    (hne : r.thread_ids ≠ []) (h5 : r.thread_ids.length < 5)
    (hfetch : (env.fetch r.thread_ids).length = r.thread_ids.length)
    (hins : env.insert_id = some cid) :
    ∃ rec : ClusterRecord,
      (cluster_unit_documents env prev unit_id a mcs ms).1 =
        Except.ok (TaskOutput.clusterResult
          ⟨"success", some "Retrieved questions directly (no clustering needed)", some rec,
           prev.transaction_id⟩) ∧
      rec.num_clusters = r.thread_ids.length ∧
      rec.core_docs.length = r.thread_ids.length ∧
      ∀ d ∈ rec.core_docs, d.probability = 1 := by
  have hfne : env.fetch r.thread_ids ≠ [] := by
    intro h0
    rw [h0] at hfetch
    exact hne (List.length_eq_zero.mp hfetch.symm)
  refine ⟨{ bypassRecord unit_id (env.fetch r.thread_ids) with cluster_id := some cid },
    ?_, ?_, ?_, ?_⟩
  · rw [bypass_spec env prev unit_id a mcs ms r cid hs hr h5 hne hfne hins]
  · simp [bypassRecord, hfetch]
  · simp [bypassRecord, hfetch]
  · intro d hd
    simp only [bypassRecord, List.mem_map] at hd
    obtain ⟨x, _, rfl⟩ := hd
    rfl

/-- Closed instance of the C5 theorem on a 3-document corpus. -/
def envB : ClusterEnv :=
  ⟨fun ids => ids.map (fun i => ⟨i, [1], ⟨"c", "q"⟩⟩), 0, 0,
   fun _ _ _ _ => .error (.other "unused"), some "cid0"⟩

/-- The upstream success payload with three thread ids. -/
def prev3 : PrevReq := ⟨"success", none, some ⟨["u1"], ["a", "b", "c"]⟩, some "t1"⟩

/-- Closed instance of the C5 theorem. -/
theorem claim5_witness :
    (prev3.status = "success" ∧ prev3.result = some ⟨["u1"], ["a", "b", "c"]⟩ ∧
     (["a", "b", "c"] : List String) ≠ [] ∧ (["a", "b", "c"] : List String).length < 5 ∧
     (envB.fetch ["a", "b", "c"]).length = (["a", "b", "c"] : List String).length ∧
     envB.insert_id = some "cid0") ∧
    ∃ rec : ClusterRecord,
      (cluster_unit_documents envB prev3 "u1" true 2 2).1 =
        Except.ok (TaskOutput.clusterResult
          ⟨"success", some "Retrieved questions directly (no clustering needed)", some rec,
           prev3.transaction_id⟩) ∧
      rec.num_clusters = (["a", "b", "c"] : List String).length ∧
      rec.core_docs.length = (["a", "b", "c"] : List String).length ∧
      ∀ d ∈ rec.core_docs, d.probability = 1 :=
  ⟨⟨rfl, rfl, by decide, by decide, rfl, rfl⟩,
   claim5_small_corpus_bypass envB prev3 "u1" true 2 2 ⟨["u1"], ["a", "b", "c"]⟩ "cid0"
     rfl rfl (by decide) (by decide) rfl rfl⟩

/-- C10: on the bypass path the persisted parameters are
`min_cluster_size = 1`, `min_samples = len(core_docs)` and
`metric = "cosine"`; hence for two or more fetched documents
`min_samples > min_cluster_size`, outside the `samples ≤ size` shape
that every grid-search candidate satisfies. -/
theorem claim10_bypass_parameters (env : ClusterEnv) (prev : PrevReq) (unit_id : String)
    (a : Bool) (mcs ms : Nat) (r : StoringResult) (cid : String)
    (hs : prev.status = "success") (hr : prev.result = some r)
    (hne : r.thread_ids ≠ []) (h5 : r.thread_ids.length < 5)
    (hfne : env.fetch r.thread_ids ≠ []) (hins : env.insert_id = some cid) :
    ∃ rec : ClusterRecord,
      (cluster_unit_documents env prev unit_id a mcs ms).1 =
        Except.ok (TaskOutput.clusterResult
          ⟨"success", some "Retrieved questions directly (no clustering needed)", some rec,
           prev.transaction_id⟩) ∧
      rec.parameters.min_cluster_size = 1 ∧
      rec.parameters.min_samples = rec.core_docs.length ∧
      rec.parameters.metric = "cosine" ∧
      (2 ≤ (env.fetch r.thread_ids).length →
        rec.parameters.min_cluster_size < rec.parameters.min_samples) ∧
      ∀ c ∈ gridCands, c.samples ≤ c.size := by
  refine ⟨{ bypassRecord unit_id (env.fetch r.thread_ids) with cluster_id := some cid },
    ?_, ?_, ?_, ?_, ?_, ?_⟩
  · rw [bypass_spec env prev unit_id a mcs ms r cid hs hr h5 hne hfne hins]
  · rfl
  · simp [bypassRecord]
  · rfl
  · intro h2
    simp only [bypassRecord, List.length_map]
    omega
  · decide

/-- Closed instance of the C10 theorem on the same 3-document corpus. -/
theorem claim10_witness :
    (prev3.status = "success" ∧ prev3.result = some ⟨["u1"], ["a", "b", "c"]⟩ ∧
     (["a", "b", "c"] : List String) ≠ [] ∧ (["a", "b", "c"] : List String).length < 5 ∧
     envB.fetch ["a", "b", "c"] ≠ [] ∧ envB.insert_id = some "cid0") ∧
    ∃ rec : ClusterRecord,
      (cluster_unit_documents envB prev3 "u1" true 2 2).1 =
        Except.ok (TaskOutput.clusterResult
          ⟨"success", some "Retrieved questions directly (no clustering needed)", some rec,
           prev3.transaction_id⟩) ∧
      rec.parameters.min_cluster_size = 1 ∧
      rec.parameters.min_samples = rec.core_docs.length ∧
      rec.parameters.metric = "cosine" ∧
      (2 ≤ (envB.fetch ["a", "b", "c"]).length →
        rec.parameters.min_cluster_size < rec.parameters.min_samples) ∧
      ∀ c ∈ gridCands, c.samples ≤ c.size :=
  ⟨⟨rfl, rfl, by decide, by decide, by decide, rfl⟩,
   claim10_bypass_parameters envB prev3 "u1" true 2 2 ⟨["u1"], ["a", "b", "c"]⟩ "cid0"
     rfl rfl (by decide) (by decide) (by decide) rfl⟩

/-- C6: when the final clustering call raises, the stage still returns the
main-path success result, whose core documents are the first
`min(10, documentCount)` fetched documents, each with probability
`1.0`, and whose recorded cluster count equals that core-document
count. -/
theorem claim6_degraded_fallback (env : ClusterEnv) (prev : PrevReq) (unit_id : String)
    (a : Bool) (mcs ms : Nat) (r : StoringResult) (cid : String) (e : PyExc)
    (hs : prev.status = "success") (hr : prev.result = some r)
    (h5 : ¬ r.thread_ids.length < 5)
    (hfne : env.fetch r.thread_ids ≠ [])
    (hperf : perform_hdbscan_clustering env (env.fetch r.thread_ids)
        (chosenParams env a mcs ms (env.fetch r.thread_ids)) = Except.error e)
    (hins : env.insert_id = some cid) :
    ∃ rec : ClusterRecord,
      (cluster_unit_documents env prev unit_id a mcs ms).1 =
        Except.ok (TaskOutput.clusterResult
          ⟨"success", some "Clustering completed successfully", some rec,
           prev.transaction_id⟩) ∧
      rec.core_docs = ((env.fetch r.thread_ids).take 10).map
        (fun d => CoreDocument.mk d.id 1 d.metadata) ∧
      rec.core_docs.length = min 10 (env.fetch r.thread_ids).length ∧
      rec.num_clusters = min 10 (env.fetch r.thread_ids).length ∧
      ∀ d ∈ rec.core_docs, d.probability = 1 := by
  refine ⟨{ mainRecord env unit_id a mcs ms (env.fetch r.thread_ids) with
              cluster_id := some cid }, ?_, ?_, ?_, ?_, ?_⟩
  · rw [main_spec env prev unit_id a mcs ms r cid hs hr h5 hfne hins]
  · simp [mainRecord, mainCoreStats, hperf, degradeCoreDocs]
  · simp [mainRecord, mainCoreStats, hperf, degradeCoreDocs, List.length_map, List.length_take]
  · simp [mainRecord, mainCoreStats, hperf, degradeCoreDocs, List.length_map, List.length_take]
  · intro d hd
    simp only [mainRecord, mainCoreStats, hperf, degradeCoreDocs, List.mem_map] at hd
    obtain ⟨x, _, rfl⟩ := hd
    rfl

/-- A clustering environment whose HDBSCAN solver always raises. -/
def envC : ClusterEnv :=
  ⟨fun ids => ids.map (fun i => ⟨i, [1], ⟨"c", "q"⟩⟩), 0, 0,
   fun _ _ _ _ => .error (.other "fit failed"), some "cid0"⟩

/-- The upstream success payload with five thread ids. -/
def prev5 : PrevReq := ⟨"success", none, some ⟨["u1"], ["a", "b", "c", "d", "e"]⟩, some "t1"⟩

/-- Closed instance of the C6 theorem on a 5-document corpus whose solver
raises. -/
theorem claim6_witness :
    (prev5.status = "success" ∧ prev5.result = some ⟨["u1"], ["a", "b", "c", "d", "e"]⟩ ∧
     ¬ (["a", "b", "c", "d", "e"] : List String).length < 5 ∧
     envC.fetch ["a", "b", "c", "d", "e"] ≠ [] ∧
     perform_hdbscan_clustering envC (envC.fetch ["a", "b", "c", "d", "e"])
       (chosenParams envC true 2 2 (envC.fetch ["a", "b", "c", "d", "e"])) =
       Except.error (PyExc.other "fit failed") ∧
     envC.insert_id = some "cid0") ∧
    ∃ rec : ClusterRecord,
      (cluster_unit_documents envC prev5 "u1" true 2 2).1 =
        Except.ok (TaskOutput.clusterResult
          ⟨"success", some "Clustering completed successfully", some rec,
           prev5.transaction_id⟩) ∧
      rec.core_docs = ((envC.fetch ["a", "b", "c", "d", "e"]).take 10).map
        (fun d => CoreDocument.mk d.id 1 d.metadata) ∧
      rec.core_docs.length = min 10 (envC.fetch ["a", "b", "c", "d", "e"]).length ∧
      rec.num_clusters = min 10 (envC.fetch ["a", "b", "c", "d", "e"]).length ∧
      ∀ d ∈ rec.core_docs, d.probability = 1 :=
  ⟨⟨rfl, rfl, by decide, by decide, rfl, rfl⟩,
   claim6_degraded_fallback envC prev5 "u1" true 2 2 ⟨["u1"], ["a", "b", "c", "d", "e"]⟩
     "cid0" (PyExc.other "fit failed") rfl rfl (by decide) (by decide) rfl rfl⟩

/-- A deduplicated list with more than one element contains an element
different from `-1`. -/
lemma exists_mem_ne_of_one_lt_dedup (l : List Int) (h : 1 < l.dedup.length) :
    ∃ x ∈ l, x ≠ -1 := by
  by_contra hall
  push_neg at hall
  have hsub : ∀ x ∈ l.dedup, x = -1 := fun x hx => hall x (List.dedup_subset l hx)
  have hnd := l.nodup_dedup
  cases hd : l.dedup with
  | nil => rw [hd] at h; simp at h
  | cons x tl =>
      cases htl : tl with
      | nil => rw [hd, htl] at h; simp at h
      | cons y t =>
          rw [hd, htl] at hnd
          have hx : x = -1 := hsub x (by rw [hd]; exact List.mem_cons_self x tl)
          have hy : y = -1 := hsub y (by rw [hd, htl]; exact List.mem_cons_of_mem x (List.mem_cons_self y t))
          rw [List.nodup_cons] at hnd
          exact hnd.1 (by rw [hx, hy]; exact List.mem_cons_self _ _)

/-- When more than one cluster was found, not every document is noise, so
the noise fraction is strictly below one. -/
lemma noiseFraction_lt_one (lab : List Int) (h : 1 < numClusters lab) :
    noiseFraction lab < 1 := by
  unfold noiseFraction
  by_cases hmem : (-1 : Int) ∈ lab
  · rw [if_pos hmem]
    have hlen : 0 < lab.length := List.length_pos.mpr (List.ne_nil_of_mem hmem)
    have hdedup : 1 < lab.dedup.length := by
      unfold numClusters at h
      rw [if_pos hmem] at h
      omega
    obtain ⟨x, hxmem, hxne⟩ := exists_mem_ne_of_one_lt_dedup lab hdedup
    have hcount : lab.count (-1) < lab.length := by
      rcases Nat.lt_or_ge (lab.count (-1)) lab.length with hlt | hge
      · exact hlt
      · exfalso
        have heq : lab.count (-1) = lab.length :=
          le_antisymm (List.count_le_length _ _) hge
        have hallm := List.count_eq_length.mp heq
        exact hxne ((hallm x hxmem).symm)
    rw [div_lt_one (by exact_mod_cast hlen)]
    exact_mod_cast hcount
  · rw [if_neg hmem]; norm_num

/-- A disqualified candidate scores exactly `-1`. -/
lemma candScore_eq_neg_one (lab : List Int) (h : numClusters lab ≤ 1) :
    candScore lab = -1 := by
  unfold candScore; rw [if_pos h]

/-- A candidate with more than one cluster scores strictly positively. -/
lemma candScore_pos (lab : List Int) (h : 1 < numClusters lab) : 0 < candScore lab := by
  unfold candScore
  rw [if_neg (by omega)]
  have h1 : (0 : Rat) < 1 - noiseFraction lab := by
    have := noiseFraction_lt_one lab h
    linarith
  have h2 : (0 : Rat) < (numClusters lab : Rat) := by
    have hpos : 0 < numClusters lab := by omega
    exact_mod_cast hpos
  exact mul_pos h2 h1

/-- One grid-search step never lowers the best score. -/
lemma optStep_fst_le (env : ClusterEnv) (docs : List FetchedDoc) (acc : Rat × Cand) (c : Cand) :
    acc.1 ≤ (optStep env docs acc c).1 := by
  unfold optStep
  cases h : env.hdbscan c.size c.samples c.metric docs with
  | error e => exact le_refl _
  | ok r =>
      dsimp only
      by_cases hlt : acc.1 < candScore r.labels
      · rw [if_pos hlt]; exact le_of_lt hlt
      · rw [if_neg hlt]

/-- The final best score dominates the initial accumulator. -/
lemma foldl_fst_le (env : ClusterEnv) (docs : List FetchedDoc) (l : List Cand) :
    ∀ acc : Rat × Cand, acc.1 ≤ (l.foldl (optStep env docs) acc).1 := by
  induction l with
  | nil => intro acc; simp
  | cons c t ih =>
      intro acc
      rw [List.foldl_cons]
      exact le_trans (optStep_fst_le env docs acc c) (ih _)

/-- The final best score dominates the score of every candidate whose fit
succeeded. -/
lemma foldl_score_le (env : ClusterEnv) (docs : List FetchedDoc) (l : List Cand) :
    ∀ (acc : Rat × Cand) (c : Cand), c ∈ l → ∀ r : HdbResult,
      env.hdbscan c.size c.samples c.metric docs = Except.ok r →
      candScore r.labels ≤ (l.foldl (optStep env docs) acc).1 := by
  induction l with
  | nil => intro acc c hc; exact absurd hc (List.not_mem_nil c)
  | cons a t ih =>
      intro acc c hc r hr
      rw [List.foldl_cons]
      rcases List.mem_cons.mp hc with rfl | hct
      · refine le_trans ?_ (foldl_fst_le env docs t (optStep env docs acc c))
        unfold optStep
        rw [hr]
        dsimp only
        by_cases hlt : acc.1 < candScore r.labels
        · rw [if_pos hlt]
        · rw [if_neg hlt]; exact le_of_not_lt hlt
      · exact ih _ c hct r hr

/-- Provenance of the grid-search result: either no candidate ever beat
the accumulator and it is returned unchanged, or the result is a
candidate of the list whose fit succeeded, whose score is the final
best score, and whose score strictly beats the initial one. -/
lemma foldl_provenance (env : ClusterEnv) (docs : List FetchedDoc) (l : List Cand) :
    ∀ acc : Rat × Cand,
      l.foldl (optStep env docs) acc = acc ∨
      ∃ c ∈ l, ∃ r : HdbResult,
        env.hdbscan c.size c.samples c.metric docs = Except.ok r ∧
        l.foldl (optStep env docs) acc = (candScore r.labels, c) ∧
        acc.1 < candScore r.labels := by
  induction l with
  | nil => intro acc; exact Or.inl rfl
  | cons a t ih =>
      intro acc
      rw [List.foldl_cons]
      cases h : env.hdbscan a.size a.samples a.metric docs with
      | error e =>
          have hstep : optStep env docs acc a = acc := by unfold optStep; rw [h]
          rw [hstep]
          rcases ih acc with heq | ⟨c, hc, r, hr, heq, hlt⟩
          · exact Or.inl heq
          · exact Or.inr ⟨c, List.mem_cons_of_mem a hc, r, hr, heq, hlt⟩
      | ok r0 =>
          by_cases hlt0 : acc.1 < candScore r0.labels
          · have hstep : optStep env docs acc a = (candScore r0.labels, a) := by
              unfold optStep; rw [h]; dsimp only; rw [if_pos hlt0]
            rw [hstep]
            rcases ih (candScore r0.labels, a) with heq | ⟨c, hc, r, hr, heq, hlt⟩
            · exact Or.inr ⟨a, List.mem_cons_self a t, r0, h, heq, hlt0⟩
            · exact Or.inr ⟨c, List.mem_cons_of_mem a hc, r, hr, heq, lt_trans hlt0 hlt⟩
          · have hstep : optStep env docs acc a = acc := by
              unfold optStep; rw [h]; dsimp only; rw [if_neg hlt0]
            rw [hstep]
            rcases ih acc with heq | ⟨c, hc, r, hr, heq, hlt⟩
            · exact Or.inl heq
            · exact Or.inr ⟨c, List.mem_cons_of_mem a hc, r, hr, heq, hlt⟩

/-- C7: whenever some candidate's fit succeeded with more than one
cluster, the grid search selects a candidate whose fit succeeded with
more than one cluster — never a disqualified one — and the selected
candidate's score `clusterCount * (1 - noiseFraction)` is maximal
among all successfully evaluated candidates. -/
theorem claim7_grid_search_selection (env : ClusterEnv) (docs : List FetchedDoc)
    (hmem : env.memory_mb_opt ≤ 1000)
    (c₀ : Cand) (hc₀ : c₀ ∈ gridCands) (r₀ : HdbResult)
    (h₀ : env.hdbscan c₀.size c₀.samples c₀.metric docs = Except.ok r₀)
    (hn₀ : 1 < numClusters r₀.labels) :
    ∃ c ∈ gridCands, ∃ r : HdbResult,
      env.hdbscan c.size c.samples c.metric docs = Except.ok r ∧
      1 < numClusters r.labels ∧
      optimize_hdbscan_parameters env docs = c ∧
      ∀ cp ∈ gridCands, ∀ rp : HdbResult,
        env.hdbscan cp.size cp.samples cp.metric docs = Except.ok rp →
        candScore rp.labels ≤ candScore r.labels := by
  have hopt : optimize_hdbscan_parameters env docs =
      (gridCands.foldl (optStep env docs) ((-1 : Rat), defaultCand)).2 := by
    unfold optimize_hdbscan_parameters
    rw [if_neg (by omega)]
  have hs₀ : 0 < candScore r₀.labels := candScore_pos r₀.labels hn₀
  have hle := foldl_score_le env docs gridCands ((-1 : Rat), defaultCand) c₀ hc₀ r₀ h₀
  rcases foldl_provenance env docs gridCands ((-1 : Rat), defaultCand) with
    heq | ⟨c, hc, r, hr, heq, hlt⟩
  · rw [heq] at hle
    have hle2 : candScore r₀.labels ≤ (-1 : Rat) := hle
    exfalso; linarith
  · refine ⟨c, hc, r, hr, ?_, ?_, ?_⟩
    · by_contra hle1
      push_neg at hle1
      have hneg : candScore r.labels = -1 := candScore_eq_neg_one r.labels hle1
      rw [heq] at hle
      have hle2 : candScore r₀.labels ≤ candScore r.labels := hle
      rw [hneg] at hle2
      linarith
    · rw [hopt, heq]
    · intro cp hcp rp hrp
      have h2 := foldl_score_le env docs gridCands ((-1 : Rat), defaultCand) cp hcp rp hrp
      rw [heq] at h2
      exact h2

/-- A clustering environment whose solver always finds two clusters and
no noise, for the C7 closed instance. -/
def env7 : ClusterEnv :=
  ⟨fun _ => [], 0, 0, fun _ _ _ _ => .ok ⟨[0, 1], [1, 1]⟩, some "cid0"⟩

/-- Closed instance of the C7 theorem. -/
theorem claim7_witness :
    (env7.memory_mb_opt ≤ 1000 ∧ (⟨2, 2, "cosine"⟩ : Cand) ∈ gridCands ∧
     env7.hdbscan 2 2 "cosine" [] = Except.ok ⟨[0, 1], [1, 1]⟩ ∧
     1 < numClusters [0, 1]) ∧
    ∃ c ∈ gridCands, ∃ r : HdbResult,
      env7.hdbscan c.size c.samples c.metric [] = Except.ok r ∧
      1 < numClusters r.labels ∧
      optimize_hdbscan_parameters env7 [] = c ∧
      ∀ cp ∈ gridCands, ∀ rp : HdbResult,
        env7.hdbscan cp.size cp.samples cp.metric [] = Except.ok rp →
        candScore rp.labels ≤ candScore r.labels :=
  ⟨⟨by decide, by decide, rfl, by decide⟩,
   claim7_grid_search_selection env7 [] (by decide) ⟨2, 2, "cosine"⟩ (by decide)
     ⟨[0, 1], [1, 1]⟩ rfl (by decide)⟩

/-- C9 counterexample: updating a fresh record to the terminal status
`FAILURE` does not set `completed_at`, so "completed_at is set iff the
status is terminal" fails on the code (the update writes
`completed_at` only for `COMPLETED` and `SUCCESS`). -/
theorem claim9_counterexample :
    ¬ ((applyUpdate ⟨.RECEIVED, 0, "t", none, none, ""⟩
          (mkUpdateData 0 .FAILURE)).completed_at.isSome = true ↔
       specTerminalStatus (applyUpdate ⟨.RECEIVED, 0, "t", none, none, ""⟩
          (mkUpdateData 0 .FAILURE)).status = true) := by
  decide

/-- C9 (amended): after a status update on a record whose `completed_at`
was unset, `completed_at` is set if and only if the new status is
`COMPLETED` or `SUCCESS`; in particular `FAILURE` updates leave it
unset, and the enumeration has no `CANCELLED` member at all. -/
theorem claim9_completed_at_iff (t : Transaction) (now : Nat) (status : TaskStatus)
    (em : String) (rn : Bool) (cid : Option String) (h : t.completed_at = none) :
    (applyUpdate t (mkUpdateData now status em rn cid)).completed_at.isSome = true ↔
      (status = TaskStatus.COMPLETED ∨ status = TaskStatus.SUCCESS) := by
  unfold applyUpdate mkUpdateData
  by_cases hs : status = TaskStatus.COMPLETED ∨ status = TaskStatus.SUCCESS
  · simp [hs]
  · simp [hs, h]

/-- Closed instance of the C9 amended theorem at a `COMPLETED` update. -/
theorem claim9_witness :
    ((⟨.RECEIVED, 0, "t", none, none, ""⟩ : Transaction).completed_at = none) ∧
    ((applyUpdate ⟨.RECEIVED, 0, "t", none, none, ""⟩
        (mkUpdateData 7 .COMPLETED "" false none)).completed_at.isSome = true ↔
      (TaskStatus.COMPLETED = TaskStatus.COMPLETED ∨
       TaskStatus.COMPLETED = TaskStatus.SUCCESS)) :=
  ⟨rfl, claim9_completed_at_iff ⟨.RECEIVED, 0, "t", none, none, ""⟩ 7 .COMPLETED "" false none rfl⟩

end Service
